import Mathlib

/-!
Verification of the 4xl hybrid upscaler frontend.

Shallow embedding of the inference orchestration layer of the repository:
the tiled local executor, the session manager, the model download loop
(`src/frontend/src/hooks/localInference.js`) and the hybrid hook with the
server fallback and the server-sent-event result parsing
(`src/frontend/src/hooks/useUpscaler.js`).
-/

namespace FourXL

-- ---------------------------------------------------------------------------
-- Constants (localInference.js lines 23-26)
-- ---------------------------------------------------------------------------

def SCALE : ℕ := 4

def TILE_SIZE : ℕ := 192

def TILE_PAD : ℕ := 16

-- ---------------------------------------------------------------------------
-- Tile geometry (upscaleLocal, localInference.js lines 239-275)
-- ---------------------------------------------------------------------------

/-- Ceiling division, `Math.ceil(a / b)` for nonnegative integers. -/
def jsCeilDiv (a b : ℕ) : ℕ := (a + b - 1) / b

/-- Tile grid width, `tilesX = Math.ceil(inW / TILE_SIZE)` (line 249). -/
def tilesX (inW : ℕ) : ℕ := jsCeilDiv inW TILE_SIZE

/-- Tile grid height, `tilesY = Math.ceil(inH / TILE_SIZE)` (line 250). -/
def tilesY (inH : ℕ) : ℕ := jsCeilDiv inH TILE_SIZE

/-- Core origin, `inX = tx * TILE_SIZE` (line 264); also used for `inY` with `ty`. -/
def coreX (tx : ℕ) : ℕ := tx * TILE_SIZE

/-- Core size, `inTileW = Math.min(TILE_SIZE, inW - inX)` (line 266); also `inTileH`. -/
def coreW (inW tx : ℕ) : ℕ := min TILE_SIZE (inW - coreX tx)

/-- Pixel column/row `x` lies in the core interval of tile column `tx`. -/
def inCoreInterval (inW tx x : ℕ) : Prop :=
  coreX tx ≤ x ∧ x < coreX tx + coreW inW tx

/-- Pixel `(x, y)` lies in the core region of tile `(tx, ty)` of a
`inW × inH` image. -/
def inCore (inW inH tx ty x y : ℕ) : Prop :=
  inCoreInterval inW tx x ∧ inCoreInterval inH ty y

/-- Padded origin, `padX0 = Math.max(0, inX - TILE_PAD)` (line 270); also `padY0`. -/
def padX0 (tx : ℕ) : ℤ := max 0 ((coreX tx : ℤ) - (TILE_PAD : ℤ))

/-- Padded end, `padX1 = Math.min(inW, inX + inTileW + TILE_PAD)` (line 272); also `padY1`. -/
def padX1 (inW tx : ℕ) : ℤ :=
  min (inW : ℤ) ((coreX tx : ℤ) + (coreW inW tx : ℤ) + (TILE_PAD : ℤ))

/-- Output canvas width, `outW = inW * SCALE` (line 241); also `outH`. -/
def outCanvasW (inW : ℕ) : ℕ := inW * SCALE

-- ---------------------------------------------------------------------------
-- Image ↔ tensor conversion (localInference.js lines 189-205 and 290-307)
-- ---------------------------------------------------------------------------

/-- Pixel-region to tensor conversion, `imageDataToTensor` (lines 189-205): converts the
RGBA byte array `data` of an image of width `width` to a planar CHW tensor of
the `w × h` region at `(x, y)`; channel `ch < 3` of pixel `(row, col)` is
`data[((y+row)*width + (x+col))*4 + ch] / 255`.  The flat tensor index is
`ch*(h*w) + row*w + col`. -/
def imageDataToTensor (data : ℕ → ℕ) (width x y w h : ℕ) : ℕ → ℚ :=
  fun i =>
    if i < 3 * (h * w) then
      ((data (((y + i % (h * w) / w) * width + (x + i % (h * w) % w)) * 4
        + i / (h * w)) : ℚ)) / 255
    else 0

/-- The per-tile output image built by the compositing loop of `upscaleLocal`
(lines 292-305): RGBA bytes of a `cropW × cropH` image; for pixel
`(row, col)` with `dstIdx = (row*cropW + col)*4`, channels 0-2 are
`Math.round(Math.min(1, Math.max(0, outData[k*outChSize + srcIdx])) * 255)`
with `srcIdx = (cropY+row)*outPadW + (cropX+col)` and
`outChSize = outPadH*outPadW`, and channel 3 (alpha) is the constant 255. -/
def tileImageData (outData : ℕ → ℚ)
    (outPadW outPadH cropX cropY cropW cropH : ℕ) : ℕ → ℕ :=
  fun i =>
    if i / 4 < cropH * cropW then
      if i % 4 = 3 then 255
      else
        (round (min 1 (max 0 (outData ((i % 4) * (outPadH * outPadW)
          + (cropY + i / 4 / cropW) * outPadW + (cropX + i / 4 % cropW))))
          * 255)).toNat
    else 0

-- ---------------------------------------------------------------------------
-- Session management (getSession, localInference.js lines 91-179)
-- ---------------------------------------------------------------------------

/-- The fixed model-name to file-name table `MODEL_FILES` (lines 17-21). -/
def MODEL_FILES (modelName : String) : Option String :=
  if modelName = "RealESRGAN_x4plus" then some ("RealESRGAN_x4plus.onnx")
  else if modelName = "RealESRNet_x4plus" then some ("RealESRNet_x4plus.onnx")
  else if modelName = "RealESRGAN_x4plus_anime_6B" then
    some ("RealESRGAN_x4plus_anime_6B.onnx")
  else none

/-- A live inference session: the `id` counts constructions so that distinct
`ort.InferenceSession.create` results are distinct values. -/
structure Sess where
  id : ℕ
  model : String
deriving DecidableEq

/-- The module-level mutable state of `localInference.js`: `_session` and
`_sessionModel` (lines 91-92), plus counters for the observable effects —
`creates` counts `ort.InferenceSession.create` calls (line 168) and
`fetches` counts network model downloads (line 119). -/
structure SessState where
  live : Option Sess
  nextId : ℕ
  creates : ℕ
  fetches : ℕ
deriving DecidableEq

/-- Environment oracle for one `getSession` call: whether the cache has the
model, whether the network download succeeds, and whether session
construction succeeds. -/
structure SessEnv where
  cacheHit : Bool
  downloadOk : Bool
  createOk : Bool
deriving DecidableEq

/-- The fetch step of `getSession` (lines 113-151): cache lookup, then on a
miss a network download that may fail. -/
def fetchModel (env : SessEnv) (s : SessState) : SessState × Except String Unit :=
  if env.cacheHit then (s, Except.ok ())
  else
    let s1 : SessState := { s with fetches := s.fetches + 1 }
    if env.downloadOk then (s1, Except.ok ())
    else (s1, Except.error ("Failed to download model"))

/-- The construction step of `getSession` (lines 154-178):
`ort.InferenceSession.create`, which may fail; on success the new session is
stored in `_session` / `_sessionModel`. -/
def createSession (modelName : String) (env : SessEnv) (s : SessState) :
    SessState × Except String Sess :=
  if env.createOk then
    let sess : Sess := ⟨s.nextId, modelName⟩
    ({ s with live := some sess, nextId := s.nextId + 1, creates := s.creates + 1 },
      Except.ok sess)
  else ({ s with creates := s.creates + 1 }, Except.error ("Failed to create session"))

/-- Body of `getSession` after the reuse check and the disposal of the previous
session (lines 108-178): validate the model name, fetch the weights, then
construct the session. -/
def getSessionFresh (modelName : String) (env : SessEnv) (s : SessState) :
    SessState × Except String Sess :=
  match MODEL_FILES modelName with
  | none => (s, Except.error ("Unknown model: " ++ modelName))
  | some _ =>
    match fetchModel env s with
    | (s1, Except.ok _) => createSession modelName env s1
    | (s1, Except.error e) => (s1, Except.error e)

/-- Session acquisition, `getSession(modelName, onProgress)` (lines 98-179).  The state is
returned alongside the result because the mutations to the module-level
variables survive a thrown error. -/
def getSession (modelName : String) (env : SessEnv) (s : SessState) :
    SessState × Except String Sess :=
  match s.live with
  | some sess =>
    if sess.model = modelName then (s, Except.ok sess)
    else getSessionFresh modelName env { s with live := none }
  | none => getSessionFresh modelName env s

-- ---------------------------------------------------------------------------
-- Progress events and the model download loop (localInference.js 116-151)
-- ---------------------------------------------------------------------------

/-- A progress callback payload `{stage, message, progress?, provider?}`. -/
structure ProgressEvent where
  stage : String
  message : String
  progress : Option ℚ
  provider : Option String
deriving DecidableEq

/-- The `onProgress` events emitted inside the download loop of `getSession`
(lines 127-139), given the declared `Content-Length` (0 when the header is
absent, per the coercion of the content-length header on line 122), the running
byte count `received`, and the remaining chunk sizes.  A per-chunk event is
emitted only when `contentLength` is nonzero, and carries
`progress = received / contentLength`. -/
def chunkEvents (contentLength received : ℕ) : List ℕ → List ProgressEvent
  | [] => []
  | c :: cs =>
    (if contentLength ≠ 0 then
      [⟨"downloading",
        "Downloading model... " ++
          toString (round (((received + c : ℕ) : ℚ) / contentLength * 100)) ++ "%",
        some (((received + c : ℕ) : ℚ) / contentLength), none⟩]
    else []) ++ chunkEvents contentLength (received + c) cs

/-- Running byte totals after each chunk. -/
def prefixSums (received : ℕ) : List ℕ → List ℕ
  | [] => []
  | c :: cs => (received + c) :: prefixSums (received + c) cs

-- ---------------------------------------------------------------------------
-- Remote executor result parsing (upscaleServer, useUpscaler.js lines 48-65)
-- ---------------------------------------------------------------------------

/-- A JSON value as far as the result parsing inspects it: `JSON.parse` may
yield null, a string, a number, a boolean, an array, or an object (which the
result handling never takes apart). -/
inductive JsonValue where
  | jnull : JsonValue
  | jstr : String → JsonValue
  | jnum : ℚ → JsonValue
  | jbool : Bool → JsonValue
  | jarr : List JsonValue → JsonValue
  | jother : JsonValue

/-- JavaScript truthiness of a JSON value, as tested by `!resultData`
(useUpscaler.js line 64): null, false, 0 and the empty string are falsy;
arrays and objects are always truthy. -/
def jsTruthy : JsonValue → Bool
  | JsonValue.jnull => false
  | JsonValue.jstr s => if s = "" then false else true
  | JsonValue.jnum q => if q = 0 then false else true
  | JsonValue.jbool b => b
  | JsonValue.jarr _ => true
  | JsonValue.jother => true

/-- One iteration of the SSE loop (lines 54-63): a line contributes a value
when it starts with `data: ` (its first 6 characters) and its remainder
parses to a non-empty JSON array, in which case element 0 is taken.
`parse` abstracts `JSON.parse`, returning `none` when it throws. -/
def dataFramePayload (parse : String → Option JsonValue) (line : String) :
    Option JsonValue :=
  if line.take 6 = "data: " then
    match parse (line.drop 6) with
    | some (JsonValue.jarr (x :: _)) => some x
    | _ => none
  else none

/-- The SSE scan of `upscaleServer` (lines 52-63) over the lines of the
response body as split on newlines (line 52): `resultData` starts as null and
is overwritten by each line that yields a payload. -/
def extractResult (parse : String → Option JsonValue) (lines : List String) :
    Option JsonValue :=
  lines.foldl
    (fun acc line =>
      match dataFramePayload parse line with
      | some x => some x
      | none => acc)
    none

/-- Step 3 of `upscaleServer` (lines 52-65): the scan result when it is
truthy; the error thrown by the `!resultData` guard (line 64) both when no
frame produced a payload (`resultData` still null) and when the last winning
frame left a falsy element 0 in `resultData`. -/
def sseResult (parse : String → Option JsonValue) (lines : List String) :
    Except String JsonValue :=
  match extractResult parse lines with
  | some r =>
    if jsTruthy r then Except.ok r
    else Except.error ("No result returned from upscaler")
  | none => Except.error ("No result returned from upscaler")

/-- A concrete stand-in for `JSON.parse` that behaves like it on the
payloads used in the concrete SSE scenarios. -/
def jsonParseStub (s : String) : Option JsonValue :=
  if s = "[\"a\"]" then some (JsonValue.jarr [JsonValue.jstr ("a")])
  else if s = "[\"b\"]" then some (JsonValue.jarr [JsonValue.jstr ("b")])
  else if s = "[null]" then some (JsonValue.jarr [JsonValue.jnull])
  else none

-- ---------------------------------------------------------------------------
-- Hybrid hook (useUpscaler.js lines 77-183)
-- ---------------------------------------------------------------------------

/-- The observable outcome of one `upscale` invocation: the final `result`,
`error` and `isLoading` states, the `setProgress` events emitted after the
initial reset, and the final value of `progress` (`none` when the last call
was `setProgress(null)`). -/
structure HookOut where
  result : Option String
  error : Option String
  isLoading : Bool
  progressLog : List ProgressEvent
  finalProgress : Option ProgressEvent
deriving DecidableEq

/-- The loading event set at the start of the local path (line 109). -/
def loadingLocalEvent : ProgressEvent :=
  ⟨"loading", "Preparing local AI engine...", none, none⟩

/-- The fallback notice (line 132). -/
def fallbackEvent : ProgressEvent :=
  ⟨"processing", "Local processing failed — using server...", none, none⟩

/-- Terminal event of the pure local path (line 120). -/
def doneLocalEvent : ProgressEvent :=
  ⟨"done", "Done (processed on your device)", none, none⟩

/-- Terminal event of the pure server path (line 126). -/
def doneServerEvent : ProgressEvent :=
  ⟨"done", "Done (processed on server)", none, none⟩

/-- Terminal event of the fallback path (line 136). -/
def doneFallbackEvent : ProgressEvent :=
  ⟨"done", "Done (server fallback)", none, none⟩

/-- The upload event set at the start of the server path (line 123). -/
def uploadingEvent : ProgressEvent :=
  ⟨"processing", "Uploading to server...", none, none⟩

/-- The combined terminal error message (line 140). -/
def bothFailedMessage : String :=
  "Both local and server processing failed. Please try again."

/-- The `upscale` callback of `useUpscaler` (lines 98-151) as a function of
the mode read at invocation time, the progress events the local path emitted
before returning or failing (`localEvents`), and the outcomes of the local
and server paths. -/
def upscaleModel (mode : String) (localEvents : List ProgressEvent)
    (localOut serverOut : Except String String) : HookOut :=
  if mode = "local" then
    match localOut with
    | Except.ok r =>
      ⟨some r, none, false,
        loadingLocalEvent :: localEvents ++ [doneLocalEvent], some doneLocalEvent⟩
    | Except.error _ =>
      match serverOut with
      | Except.ok r =>
        ⟨some r, none, false,
          loadingLocalEvent :: localEvents ++ [fallbackEvent, doneFallbackEvent],
          some doneFallbackEvent⟩
      | Except.error _ =>
        ⟨none, some bothFailedMessage, false,
          loadingLocalEvent :: localEvents ++ [fallbackEvent], none⟩
  else
    match serverOut with
    | Except.ok r =>
      ⟨some r, none, false, [uploadingEvent, doneServerEvent], some doneServerEvent⟩
    | Except.error e =>
      ⟨none, some e, false, [uploadingEvent], none⟩

/-- The hook state visible to `toggleMode` (lines 162-164): the `mode` cell,
plus the state of an in-flight invocation — `running` is the mode snapshot
(`tryLocal`, line 104) the invocation captured when it started, `none` when
idle. -/
structure HookState where
  mode : String
  running : Option String
  isLoading : Bool
  result : Option String
  error : Option String
deriving DecidableEq

/-- Mode toggle, `toggleMode` (lines 162-164): unconditionally flips the mode cell. -/
def toggleMode (s : HookState) : HookState :=
  { s with mode := if s.mode = "local" then "server" else "local" }

/-- The start of an `upscale` invocation (lines 99-104): resets result and
error, sets `isLoading`, and captures the current mode as `tryLocal`. -/
def startUpscale (s : HookState) : HookState :=
  { s with isLoading := true, error := none, result := none, running := some s.mode }

-- ---------------------------------------------------------------------------
-- Theorems
-- ---------------------------------------------------------------------------

/-- On success, `getSessionFresh` stores the freshly constructed session; the
construction counter advances by exactly one. -/
theorem getSessionFresh_ok (m : String) (env : SessEnv) (s s1 : SessState)
    (sess : Sess) (h : getSessionFresh m env s = (s1, Except.ok sess)) :
    s1.live = some sess ∧ sess.model = m ∧ sess.id = s.nextId ∧
    s1.creates = s.creates + 1 := by
  simp only [getSessionFresh, fetchModel, createSession] at h
  rcases hmf : MODEL_FILES m with _ | f <;> rw [hmf] at h
  · simp at h
  · by_cases hc : env.cacheHit <;> by_cases hd : env.downloadOk <;>
      by_cases hk : env.createOk <;> simp [hc, hd, hk] at h <;>
      obtain ⟨h1, h2⟩ := h <;> subst h1 <;> rw [← h2] <;> simp

/-- On failure, `getSessionFresh` leaves `_session` as it found it. -/
theorem getSessionFresh_error_live (m : String) (env : SessEnv) (s s1 : SessState)
    (e : String) (h : getSessionFresh m env s = (s1, Except.error e)) :
    s1.live = s.live := by
  simp only [getSessionFresh, fetchModel, createSession] at h
  rcases hmf : MODEL_FILES m with _ | f <;> rw [hmf] at h <;>
    by_cases hc : env.cacheHit <;> by_cases hd : env.downloadOk <;>
    by_cases hk : env.createOk <;> simp [hc, hd, hk] at h <;>
    obtain ⟨h1, h2⟩ := h <;> subst h1 <;> rfl

/-- C1: for every image of width W ≥ 1 and height H ≥ 1, the core regions of
the tiles computed by `upscaleLocal` (origin `(tx*TILE_SIZE, ty*TILE_SIZE)`,
size `(min(TILE_SIZE, W - tx*TILE_SIZE), min(TILE_SIZE, H - ty*TILE_SIZE))`
for `tx < tilesX W`, `ty < tilesY H`) partition the rectangle
`[0,W) × [0,H)`: every pixel lies in the core region of exactly one tile. -/
theorem tileCores_partition (inW inH x y : ℕ)
    (hW : 1 ≤ inW) (hH : 1 ≤ inH) (hx : x < inW) (hy : y < inH) :
    (∃ tx ty, tx < tilesX inW ∧ ty < tilesY inH ∧ inCore inW inH tx ty x y) ∧
    (∀ tx ty tx2 ty2, inCore inW inH tx ty x y → inCore inW inH tx2 ty2 x y →
      tx = tx2 ∧ ty = ty2) := by
  constructor
  · refine ⟨x / 192, y / 192, ?_, ?_, ?_, ?_⟩
    · simp only [tilesX, jsCeilDiv, TILE_SIZE]
      omega
    · simp only [tilesY, jsCeilDiv, TILE_SIZE]
      omega
    · simp only [inCoreInterval, coreX, coreW, TILE_SIZE]
      omega
    · simp only [inCoreInterval, coreX, coreW, TILE_SIZE]
      omega
  · intro tx ty tx2 ty2 h1 h2
    simp only [inCore, inCoreInterval, coreX, coreW, TILE_SIZE] at h1 h2
    omega

/-- Witness for C1 at the concrete image 200 × 200 and pixel (100, 195). -/
theorem tileCores_partition_witness :
    (∃ tx ty, tx < tilesX 200 ∧ ty < tilesY 200 ∧ inCore 200 200 tx ty 100 195) ∧
    (∀ tx ty tx2 ty2, inCore 200 200 tx ty 100 195 → inCore 200 200 tx2 ty2 100 195 →
      tx = tx2 ∧ ty = ty2) :=
  tileCores_partition 200 200 100 195 (by decide) (by decide) (by decide) (by decide)

/-- C6: for every tile of every W × H image, the padded input region computed
by `upscaleLocal` (core expanded by TILE_PAD = 16 on each side, clamped to the
image bounds) contains the core region and stays inside `[0,W) × [0,H)`, and
the scaled write region of the tile stays inside the output canvas. -/
theorem padded_region_bounds (inW inH tx ty : ℕ)
    (hW : 1 ≤ inW) (hH : 1 ≤ inH)
    (htx : tx < tilesX inW) (hty : ty < tilesY inH) :
    0 ≤ padX0 tx ∧ padX0 tx ≤ (coreX tx : ℤ) ∧
    ((coreX tx : ℤ) + (coreW inW tx : ℤ)) ≤ padX1 inW tx ∧ padX1 inW tx ≤ (inW : ℤ) ∧
    0 ≤ padX0 ty ∧ padX0 ty ≤ (coreX ty : ℤ) ∧
    ((coreX ty : ℤ) + (coreW inH ty : ℤ)) ≤ padX1 inH ty ∧ padX1 inH ty ≤ (inH : ℤ) ∧
    (coreX tx + coreW inW tx) * SCALE ≤ outCanvasW inW ∧
    (coreX ty + coreW inH ty) * SCALE ≤ outCanvasW inH := by
  simp only [tilesX, tilesY, jsCeilDiv, TILE_SIZE] at htx hty
  simp only [padX0, padX1, coreX, coreW, outCanvasW, TILE_SIZE, TILE_PAD, SCALE]
  push_cast
  omega

/-- Witness for C6 at the concrete image 200 × 300 and tile (1, 1). -/
theorem padded_region_bounds_witness :
    0 ≤ padX0 1 ∧ padX0 1 ≤ (coreX 1 : ℤ) ∧
    ((coreX 1 : ℤ) + (coreW 200 1 : ℤ)) ≤ padX1 200 1 ∧ padX1 200 1 ≤ (200 : ℤ) ∧
    0 ≤ padX0 1 ∧ padX0 1 ≤ (coreX 1 : ℤ) ∧
    ((coreX 1 : ℤ) + (coreW 300 1 : ℤ)) ≤ padX1 300 1 ∧ padX1 300 1 ≤ (300 : ℤ) ∧
    (coreX 1 + coreW 200 1) * SCALE ≤ outCanvasW 200 ∧
    (coreX 1 + coreW 300 1) * SCALE ≤ outCanvasW 300 :=
  padded_region_bounds 200 300 1 1 (by decide) (by decide) (by decide) (by decide)

/-- C7: a 256 × 256 input with tile size 192 and padding 16 yields exactly
4 tiles in a 2 × 2 grid, the last row and column tiles have core size 64,
and the output canvas is 1024 × 1024. -/
theorem tiles_256_grid :
    tilesX 256 = 2 ∧ tilesY 256 = 2 ∧ tilesX 256 * tilesY 256 = 4 ∧
    coreW 256 0 = 192 ∧ coreW 256 1 = 64 ∧
    outCanvasW 256 = 1024 := by
  decide

/-- On success, `getSession` stores the returned session and its model
matches the request. -/
theorem getSession_ok_live (m : String) (env : SessEnv) (s s1 : SessState)
    (sess : Sess) (h : getSession m env s = (s1, Except.ok sess)) :
    s1.live = some sess ∧ sess.model = m := by
  rcases hl : s.live with _ | sess2
  · simp only [getSession, hl] at h
    exact ⟨(getSessionFresh_ok m env s s1 sess h).1,
      (getSessionFresh_ok m env s s1 sess h).2.1⟩
  · by_cases hm : sess2.model = m
    · simp only [getSession, hl, if_pos hm, Prod.mk.injEq, Except.ok.injEq] at h
      obtain ⟨h1, h2⟩ := h
      subst h1
      subst h2
      exact ⟨hl, hm⟩
    · simp only [getSession, hl, if_neg hm] at h
      exact ⟨(getSessionFresh_ok m env _ s1 sess h).1,
        (getSessionFresh_ok m env _ s1 sess h).2.1⟩

/-- C3: acquiring a model while the live session wraps the same descriptor
returns that session with the state untouched (so construction and download
are invoked exactly once across the sequence: a successful acquisition
followed by an acquisition of the same model returns the same session
instance and changes nothing); acquiring a different descriptor releases the
prior session before construction, so the prior session is never live
afterwards and at most one live session exists — on success the live session
is exactly the newly constructed one. -/
theorem getSession_reuse_single (m : String) (env env2 : SessEnv) (s : SessState)
    (sess0 sess : Sess) :
    ((getSession m env s).2 = Except.ok sess →
      getSession m env2 (getSession m env s).1 =
        ((getSession m env s).1, Except.ok sess)) ∧
    (s.live = some sess0 → sess0.model = m →
      getSession m env s = (s, Except.ok sess0)) ∧
    (s.live = some sess0 → sess0.model ≠ m →
      (getSession m env s).1.live ≠ some sess0 ∧
      ((getSession m env s).2 = Except.ok sess →
        (getSession m env s).1.live = some sess ∧ sess.model = m ∧
        sess.id = s.nextId ∧ (getSession m env s).1.creates = s.creates + 1)) := by
  refine ⟨?_, ?_, ?_⟩
  · intro hok
    rcases hr : getSession m env s with ⟨s1, r⟩
    rw [hr] at hok
    dsimp only at hok ⊢
    subst hok
    obtain ⟨hlive, hmodel⟩ := getSession_ok_live m env s s1 sess hr
    simp only [getSession, hlive, if_pos hmodel]
  · intro h0 hm
    simp only [getSession, h0, if_pos hm]
  · intro h0 hm
    have hstep : getSession m env s = getSessionFresh m env { s with live := none } := by
      simp only [getSession, h0, if_neg hm]
    rw [hstep]
    rcases hr : getSessionFresh m env { s with live := none } with ⟨s1, r⟩
    dsimp only
    rcases r with e | sess1
    · have hlv := getSessionFresh_error_live m env _ s1 e hr
      constructor
      · simp only [hlv]
        simp
      · intro hok
        simp at hok
    · have hfr := getSessionFresh_ok m env _ s1 sess1 hr
      constructor
      · rw [hfr.1]
        intro hc
        simp only [Option.some.injEq] at hc
        apply hm
        rw [← hc, hfr.2.1]
      · intro hok
        simp only [Except.ok.injEq] at hok
        subst hok
        exact ⟨hfr.1, hfr.2.1, hfr.2.2.1, hfr.2.2.2⟩

/-- Witness for C3: reuse at a live matching session, and release of the
prior session when a different descriptor is acquired. -/
theorem getSession_reuse_single_witness :
    getSession ("RealESRGAN_x4plus") ⟨true, true, true⟩
        ⟨some ⟨7, "RealESRGAN_x4plus"⟩, 8, 3, 2⟩ =
      (⟨some ⟨7, "RealESRGAN_x4plus"⟩, 8, 3, 2⟩,
        Except.ok ⟨7, "RealESRGAN_x4plus"⟩) ∧
    (getSession ("RealESRGAN_x4plus") ⟨true, true, true⟩
        ⟨some ⟨7, "RealESRNet_x4plus"⟩, 8, 3, 2⟩).1.live ≠
      some ⟨7, "RealESRNet_x4plus"⟩ :=
  ⟨(getSession_reuse_single ("RealESRGAN_x4plus") ⟨true, true, true⟩
      ⟨true, true, true⟩ ⟨some ⟨7, "RealESRGAN_x4plus"⟩, 8, 3, 2⟩
      ⟨7, "RealESRGAN_x4plus"⟩ ⟨0, ""⟩).2.1 rfl rfl,
   ((getSession_reuse_single ("RealESRGAN_x4plus") ⟨true, true, true⟩
      ⟨true, true, true⟩ ⟨some ⟨7, "RealESRNet_x4plus"⟩, 8, 3, 2⟩
      ⟨7, "RealESRNet_x4plus"⟩ ⟨0, ""⟩).2.2 rfl (by decide)).1⟩

/-- C9: session acquisition is not atomic on failure — when `getSession` is
called with a model different from that of the live session and the call then
fails for any reason, no live session remains: the prior session was already
released before validation, download and construction. -/
theorem getSession_failure_drops_session (m : String) (env : SessEnv)
    (s : SessState) (sess0 : Sess) (e : String)
    (h0 : s.live = some sess0) (hm : sess0.model ≠ m)
    (hfail : (getSession m env s).2 = Except.error e) :
    (getSession m env s).1.live = none := by
  have hstep : getSession m env s = getSessionFresh m env { s with live := none } := by
    simp only [getSession, h0, if_neg hm]
  rw [hstep] at hfail ⊢
  rcases hr : getSessionFresh m env { s with live := none } with ⟨s1, r⟩
  rw [hr] at hfail
  dsimp only at hfail ⊢
  rcases r with e1 | sess1
  · have hlv := getSessionFresh_error_live m env _ s1 e1 hr
    simpa using hlv
  · simp at hfail

/-- Witness for C9: an unknown model name destroys the previously working
session. -/
theorem getSession_failure_drops_session_witness :
    (getSession ("bogus") ⟨true, true, true⟩
      ⟨some ⟨0, "RealESRGAN_x4plus"⟩, 1, 1, 1⟩).1.live = none :=
  getSession_failure_drops_session ("bogus") ⟨true, true, true⟩
    ⟨some ⟨0, "RealESRGAN_x4plus"⟩, 1, 1, 1⟩ ⟨0, "RealESRGAN_x4plus"⟩
    ("Unknown model: bogus") rfl (by decide) rfl

/-- C10: the local path ignores the alpha channel of the input — the tensor
built by `imageDataToTensor` depends only on bytes at RGBA indices that are
not alpha (index mod 4 ≠ 3) — and every pixel of every tile image written to
the output canvas has its alpha byte set to 255, so the composited local
output is fully opaque. -/
theorem local_output_opaque :
    (∀ data data2 : ℕ → ℕ, ∀ width x y w h i : ℕ,
      (∀ j, j % 4 ≠ 3 → data j = data2 j) →
      imageDataToTensor data width x y w h i = imageDataToTensor data2 width x y w h i) ∧
    (∀ outData : ℕ → ℚ, ∀ outPadW outPadH cropX cropY cropW cropH row col : ℕ,
      row < cropH → col < cropW →
      tileImageData outData outPadW outPadH cropX cropY cropW cropH
        ((row * cropW + col) * 4 + 3) = 255) := by
  constructor
  · intro data data2 width x y w h i hagree
    simp only [imageDataToTensor]
    by_cases hi : i < 3 * (h * w)
    · have hw : 0 < h * w := by omega
      have hch : i / (h * w) < 3 := (Nat.div_lt_iff_lt_mul hw).mpr (by omega)
      have hkey : (((y + i % (h * w) / w) * width + (x + i % (h * w) % w)) * 4
          + i / (h * w)) % 4 ≠ 3 := by
        generalize (y + i % (h * w) / w) * width + (x + i % (h * w) % w) = A
        generalize hc : i / (h * w) = c at hch
        omega
      rw [if_pos hi, if_pos hi, hagree _ hkey]
    · rw [if_neg hi, if_neg hi]
  · intro outData outPadW outPadH cropX cropY cropW cropH row col hrow hcol
    have hp : row * cropW + col < cropH * cropW := by
      calc row * cropW + col < row * cropW + cropW := by omega
        _ = (row + 1) * cropW := by ring
        _ ≤ cropH * cropW := Nat.mul_le_mul_right _ (by omega)
    simp only [tileImageData]
    have hdiv : (row * cropW + col) * 4 + 3 = 4 * (row * cropW + col) + 3 := by ring
    rw [hdiv]
    have h1 : (4 * (row * cropW + col) + 3) / 4 = row * cropW + col := by omega
    have h2 : (4 * (row * cropW + col) + 3) % 4 = 3 := by omega
    rw [h1, h2, if_pos hp, if_pos rfl]

/-- Witness for C10: two concrete byte arrays that agree away from alpha give
the same tensor value, and a concrete tile pixel gets alpha 255. -/
theorem local_output_opaque_witness :
    imageDataToTensor (fun _ => 5) 2 0 0 1 1 0 =
      imageDataToTensor (fun j => if j % 4 = 3 then 9 else 5) 2 0 0 1 1 0 ∧
    tileImageData (fun _ => (1 : ℚ)) 4 4 0 0 2 2 15 = 255 := by
  constructor
  · exact local_output_opaque.1 (fun _ => 5) (fun j => if j % 4 = 3 then 9 else 5)
      2 0 0 1 1 0 (by intro j hj; simp [hj])
  · have h := local_output_opaque.2 (fun _ => (1 : ℚ)) 4 4 0 0 2 2 1 1
      (by decide) (by decide)
    simpa using h

/-- The payload of the last line that yields one: the specification-side
description of what the overwrite loop computes. -/
def lastFramePayload (parse : String → Option JsonValue) :
    List String → Option JsonValue
  | [] => none
  | line :: rest =>
    match lastFramePayload parse rest with
    | some x => some x
    | none => dataFramePayload parse line

/-- The overwrite fold equals a backwards search, for any start accumulator. -/
theorem extractResult_go (parse : String → Option JsonValue) (lines : List String)
    (acc : Option JsonValue) :
    lines.foldl
      (fun a line =>
        match dataFramePayload parse line with
        | some x => some x
        | none => a)
      acc =
    (match lastFramePayload parse lines with
      | some x => some x
      | none => acc) := by
  induction lines generalizing acc with
  | nil => simp [lastFramePayload]
  | cons line rest ih =>
    simp only [List.foldl_cons, lastFramePayload]
    rw [ih]
    cases hrest : lastFramePayload parse rest with
    | some x => simp
    | none =>
      cases hline : dataFramePayload parse line <;> simp

/-- C4 (amended): the SSE loop of `upscaleServer` scans for the LAST
`data: <json>` frame whose payload parses to a non-empty array — later
parseable frames overwrite earlier ones — and the call returns that frame
element 0 when it is truthy; it fails with the remote error both when no
such frame exists and when the last winning frame element 0 is falsy
(null, empty string, 0 or false), per the `!resultData` guard. -/
theorem sse_result_last_frame (parse : String → Option JsonValue)
    (lines : List String) :
    extractResult parse lines = lastFramePayload parse lines ∧
    (∀ r, extractResult parse lines = some r → jsTruthy r = true →
      sseResult parse lines = Except.ok r) ∧
    (∀ r, extractResult parse lines = some r → jsTruthy r = false →
      sseResult parse lines = Except.error ("No result returned from upscaler")) ∧
    (extractResult parse lines = none →
      sseResult parse lines = Except.error ("No result returned from upscaler")) := by
  have hgo := extractResult_go parse lines none
  refine ⟨?_, ?_, ?_, ?_⟩
  · rw [extractResult, hgo]
    cases lastFramePayload parse lines <;> rfl
  · intro r hr htr
    simp [sseResult, hr, htr]
  · intro r hr htr
    simp [sseResult, hr, htr]
  · intro hnone
    simp [sseResult, hnone]

/-- Witness for C4 (amended): a truthy last frame is returned; a falsy last
frame overwrites an earlier truthy one and makes the call fail; a stream
with no `data:` frame fails. -/
theorem sse_result_last_frame_witness :
    sseResult jsonParseStub ["data: [\"a\"]"] = Except.ok (JsonValue.jstr ("a")) ∧
    sseResult jsonParseStub ["data: [\"a\"]", "data: [null]"] =
      Except.error ("No result returned from upscaler") ∧
    sseResult jsonParseStub ["x"] = Except.error ("No result returned from upscaler") :=
  ⟨(sse_result_last_frame jsonParseStub ["data: [\"a\"]"]).2.1
      (JsonValue.jstr ("a")) rfl rfl,
   (sse_result_last_frame jsonParseStub ["data: [\"a\"]", "data: [null]"]).2.2.1
      JsonValue.jnull rfl rfl,
   (sse_result_last_frame jsonParseStub ["x"]).2.2.2 rfl⟩

/-- Counterexample to C4 as stated: on a stream with two parseable non-empty
array frames `["a"]` then `["b"]`, the code returns element 0 of the second
frame, not of the first — later frames do affect the result. -/
theorem sse_first_frame_counterexample :
    extractResult jsonParseStub ["data: [\"a\"]", "data: [\"b\"]"] =
      some (JsonValue.jstr ("b")) ∧
    JsonValue.jstr ("b") ≠ JsonValue.jstr ("a") := by
  constructor
  · rfl
  · intro h
    injection h with h2
    exact absurd h2 (by decide)

/-- Counterexample to C5 as stated: with declared content length 200 and a
first chunk of 100 bytes, the emitted fraction is `100 / 200`, which is not
the claimed `content length divided by bytes received` (`200 / 100`). -/
theorem download_progress_counterexample :
    (chunkEvents 200 0 [100]).map (fun e => e.progress) = [some ((100 : ℚ) / 200)] ∧
    ¬((100 : ℚ) / 200 = (200 : ℚ) / 100) := by
  constructor
  · norm_num [chunkEvents]
  · norm_num

/-- C5 (amended): during a cache-miss download with declared content length
`L ≠ 0`, the per-chunk `downloading` events carry
`progress = bytes received so far / L`; when the content length is absent or
zero, no per-chunk event is emitted at all. -/
theorem download_progress_fraction (L r0 : ℕ) (cs : List ℕ) :
    (L ≠ 0 →
      (chunkEvents L r0 cs).map (fun e => e.progress) =
        (prefixSums r0 cs).map (fun r => some ((r : ℚ) / L))) ∧
    (L = 0 → chunkEvents L r0 cs = []) := by
  induction cs generalizing r0 with
  | nil => simp [chunkEvents, prefixSums]
  | cons c cs ih =>
    constructor
    · intro hL
      simp [chunkEvents, prefixSums, hL, (ih (r0 + c)).1 hL]
    · intro hL
      subst hL
      simp [chunkEvents, (ih (r0 + c)).2 rfl]

/-- Witness for C5 (amended) at content length 200 with two 100-byte chunks,
and at unknown content length. -/
theorem download_progress_fraction_witness :
    (chunkEvents 200 0 [100, 100]).map (fun e => e.progress) =
      (prefixSums 0 [100, 100]).map (fun r => some ((r : ℚ) / 200)) ∧
    chunkEvents 0 0 [100] = [] :=
  ⟨(download_progress_fraction 200 0 [100, 100]).1 (by decide),
   (download_progress_fraction 0 0 [100]).2 rfl⟩

/-- C2: in local mode, when the local path fails with any error, `upscale`
invokes the server path without re-throwing the local error and emits the
fallback progress message; if the server path succeeds its result is
published as a success with no error, and if the server path also fails the
invocation ends in a single failed state carrying the combined error with no
result published and loading cleared. -/
theorem upscale_local_fallback (localEvents : List ProgressEvent) (e : String)
    (serverOut : Except String String) :
    (∀ r, serverOut = Except.ok r →
      (upscaleModel ("local") localEvents (Except.error e) serverOut).result = some r ∧
      (upscaleModel ("local") localEvents (Except.error e) serverOut).error = none ∧
      fallbackEvent ∈
        (upscaleModel ("local") localEvents (Except.error e) serverOut).progressLog ∧
      (upscaleModel ("local") localEvents (Except.error e) serverOut).finalProgress =
        some doneFallbackEvent) ∧
    (∀ e2, serverOut = Except.error e2 →
      (upscaleModel ("local") localEvents (Except.error e) serverOut).result = none ∧
      (upscaleModel ("local") localEvents (Except.error e) serverOut).error =
        some bothFailedMessage ∧
      fallbackEvent ∈
        (upscaleModel ("local") localEvents (Except.error e) serverOut).progressLog ∧
      (upscaleModel ("local") localEvents (Except.error e) serverOut).isLoading = false) := by
  constructor
  · intro r hr
    subst hr
    simp [upscaleModel]
  · intro e2 hr
    subst hr
    simp [upscaleModel]

/-- Witness for C2 at concrete local and server outcomes. -/
theorem upscale_local_fallback_witness :
    (upscaleModel ("local") [] (Except.error ("boom")) (Except.ok ("img"))).result =
      some ("img") ∧
    (upscaleModel ("local") [] (Except.error ("boom")) (Except.error ("down"))).error =
      some bothFailedMessage :=
  ⟨((upscale_local_fallback [] ("boom") (Except.ok ("img"))).1 ("img") rfl).1,
   ((upscale_local_fallback [] ("boom") (Except.error ("down"))).2 ("down") rfl).2.1⟩

/-- Counterexample to C8 as stated: `toggleMode` is accepted mid-run — on a
state with an invocation in flight (`isLoading = true`) it still flips the
mode cell instead of having no effect. -/
theorem toggleMode_midrun_counterexample :
    (toggleMode ⟨"local", some ("local"), true, none, none⟩).mode = "server" ∧
    toggleMode ⟨"local", some ("local"), true, none, none⟩ ≠
      ⟨"local", some ("local"), true, none, none⟩ := by
  decide

/-- C8 (amended): `toggleMode` is accepted in every state, including while an
invocation is in flight; it flips the mode cell for subsequent invocations
but leaves the in-flight invocation untouched — the captured mode snapshot,
the loading flag, the result and the error are unchanged, and the snapshot an
invocation captured at start is unaffected by a later toggle. -/
theorem toggleMode_flips_only_mode (s : HookState) :
    (toggleMode s).mode = (if s.mode = "local" then "server" else "local") ∧
    (toggleMode s).running = s.running ∧
    (toggleMode s).isLoading = s.isLoading ∧
    (toggleMode s).result = s.result ∧
    (toggleMode s).error = s.error ∧
    (toggleMode (startUpscale s)).running = some s.mode := by
  simp [toggleMode, startUpscale]

end FourXL
